import Mathlib

/-!
# WiseTech LMS REST API — verification of the authentication core

Shallow embedding of the authentication core of the WiseTech LMS backend:

* the credential store (`internal/repository/auth_repository.go`) over the
  SQLite schema of `internal/database/database.go`, modelled as explicit
  state passing on a `DB` value;
* the two coexisting JWT token-engine variants: the AccountID/LenderID
  variant of `internal/auth/jwt.go` (namespace `AuthPair`) and the UserID
  variant defined alongside the HTTP server sources (namespace `AuthUser`),
  with tokens modelled at the semantic level of the golang-jwt v5 library;
* the password strength policy of the `utils` package (`ValidatePassword`,
  whose implementation file travels appended to the database test sources).

Timestamps are unix seconds (`Nat`).  Machine strings are Lean `String`s;
all inputs in play are ASCII, where Go byte length and Lean char length
agree.
-/

namespace Repo

/-- A row of the `Lenders` table (schema in `database.go`).  The
`Interest_Rate_Percent` column is a SQLite REAL; no arithmetic is ever
performed on it in the modelled code, it is only stored and compared against
the CHECK range `0 ≤ r ≤ 100`, so it is carried as an `Int` here. -/
structure Lender where
  lenderID : Nat
  businessName : String
  phoneNumber : String
  email : String
  interestRatePercent : Int
  createdAt : Nat
  updatedAt : Nat
  isActive : Bool
deriving Repr, DecidableEq

/-- A row of the `Accounts` table (schema in `database.go`).
`Last_Login` is nullable (`Option`); `Is_Locked` defaults to 0 (false). -/
structure Account where
  accountID : Nat
  lenderID : Nat
  username : String
  passwordHash : String
  createdAt : Nat
  updatedAt : Nat
  lastLogin : Option Nat
  isLocked : Bool
deriving Repr, DecidableEq

/-- The visible (committed) database state for the two tables the
authentication core touches, together with the AUTOINCREMENT counters
(SQLite assigns ids starting from 1). -/
structure DB where
  lenders : List Lender
  accounts : List Account
  nextLenderID : Nat
  nextAccountID : Nat
deriving Repr, DecidableEq

/-- The empty database right after `InitializeSchema`. -/
def DB.init : DB := { lenders := [], accounts := [], nextLenderID := 1, nextAccountID := 1 }

/-- Error outcomes of the repository layer.  `ErrAccountNotFound` and
`ErrLenderNotFound` are the two distinct sentinels of
`auth_repository.go`; the remaining cases are the SQLite failures the
modelled code can hit (unique-constraint violations on `Lenders.Email` and
`Accounts.Username`, the CHECK range on the interest rate, and a failing
`Commit`). -/
inductive DBError
  | uniqueEmail
  | uniqueUsername
  | checkInterestRate
  | commitFailed
  | accountNotFound
  | lenderNotFound
deriving Repr, DecidableEq

/-- UNIQUE constraint on `Lenders.Email`: does a committed lender row
already carry this email? -/
def emailTaken (db : DB) (email : String) : Bool :=
  db.lenders.any (fun l => l.email == email)

/-- UNIQUE constraint on `Accounts.Username`: does a committed account row
already carry this username? -/
def usernameTaken (db : DB) (username : String) : Bool :=
  db.accounts.any (fun a => a.username == username)

/-- `CreateLenderAndAccount` (auth_repository.go:36-80): inside one
transaction, insert a `Lenders` row, read its `LastInsertId`, insert an
`Accounts` row referencing it, and return `int(accountID), tx.Commit()`.
The deferred `tx.Rollback()` discards the transaction on every error path,
so a failed insert or a failed commit leaves the committed state unchanged.

`now` is the single `time.Now()` read at line 43, used for both
`Created_At` and `Updated_At` of both rows.  `commitOk` is the oracle for
whether the final `tx.Commit()` succeeds.  The lender insert fails on a
duplicate email or an out-of-range interest rate (CHECK constraint); the
account insert fails on a duplicate username.  Driver-level failures of
`Begin`/`Prepare`/`LastInsertId` are not modelled (the store is healthy). -/
def createLenderAndAccount (db : DB)
    (businessName email phone username passwordHash : String)
    (interestRate : Int) (now : Nat) (commitOk : Bool) :
    (Nat × Option DBError) × DB :=
  if emailTaken db email then ((0, some .uniqueEmail), db)
  else if !(0 ≤ interestRate ∧ interestRate ≤ 100 : Bool) then
    ((0, some .checkInterestRate), db)
  else
    let lenderID := db.nextLenderID
    let lender : Lender :=
      { lenderID := lenderID, businessName := businessName, phoneNumber := phone,
        email := email, interestRatePercent := interestRate,
        createdAt := now, updatedAt := now, isActive := true }
    if usernameTaken db username then ((0, some .uniqueUsername), db)
    else
      let accountID := db.nextAccountID
      let account : Account :=
        { accountID := accountID, lenderID := lenderID, username := username,
          passwordHash := passwordHash, createdAt := now, updatedAt := now,
          lastLogin := none, isLocked := false }
      if commitOk then
        ((accountID, none),
         { lenders := db.lenders ++ [lender],
           accounts := db.accounts ++ [account],
           nextLenderID := lenderID + 1,
           nextAccountID := accountID + 1 })
      else
        ((accountID, some .commitFailed), db)

/-- `GetAccountByUsername` (auth_repository.go:83-103): `QueryRow` over
`WHERE Username = ?`; `sql.ErrNoRows` is mapped to the
`ErrAccountNotFound` sentinel. -/
def getAccountByUsername (db : DB) (username : String) : Except DBError Account :=
  match db.accounts.find? (fun a => a.username == username) with
  | some a => .ok a
  | none => .error .accountNotFound

/-- `GetAccountByID` (auth_repository.go:106-126): same contract keyed by
`Account_ID`. -/
def getAccountByID (db : DB) (accountID : Nat) : Except DBError Account :=
  match db.accounts.find? (fun a => a.accountID == accountID) with
  | some a => .ok a
  | none => .error .accountNotFound

/-- `GetLenderByAccountID` (auth_repository.go:129-163): first resolve the
account's `Lender_ID` (no row → `ErrAccountNotFound`), then fetch that
lender (no row → the distinct `ErrLenderNotFound`). -/
def getLenderByAccountID (db : DB) (accountID : Nat) : Except DBError Lender :=
  match db.accounts.find? (fun a => a.accountID == accountID) with
  | none => .error .accountNotFound
  | some a =>
    match db.lenders.find? (fun l => l.lenderID == a.lenderID) with
    | none => .error .lenderNotFound
    | some l => .ok l

/-- `UpdateLastLogin` (auth_repository.go:166-175): `UPDATE Accounts SET
Last_Login = ? WHERE Account_ID = ?`, discarding the affected-row count,
so a miss is not an error.  The schema trigger
`update_accounts_updated_at` (database.go:148-152) fires on the update and
sets `Updated_At = CURRENT_TIMESTAMP` on the same row; both clock reads
are the same instant `now` here. -/
def updateLastLogin (db : DB) (accountID : Nat) (now : Nat) : Option DBError × DB :=
  (none,
   { db with accounts := db.accounts.map (fun a =>
       if a.accountID == accountID then
         { a with lastLogin := some now, updatedAt := now }
       else a) })

end Repo

namespace Jwt

/-- Declared signing algorithm of a token's header (`alg`).  The keyfunc of
both `ValidateToken` variants accepts exactly the symmetric HMAC family
(`*jwt.SigningMethodHMAC`: HS256/HS384/HS512) and rejects every other
method. -/
inductive Alg
  | HS256
  | HS384
  | HS512
  | RS256
  | ES256
  | none_
deriving Repr, DecidableEq

/-- Is the algorithm in the `jwt.SigningMethodHMAC` family? -/
def Alg.isHMAC : Alg → Bool
  | .HS256 | .HS384 | .HS512 => true
  | _ => false

/-- The distinguishable failure kinds observable from the token engine.
`malformed` is `jwt.ErrTokenMalformed` (not a structurally valid JWT);
`unexpectedMethod` is the keyfunc rejection of a non-HMAC `alg`, wrapped by
the library as `jwt.ErrTokenUnverifiable`; `signatureInvalid` is
`jwt.ErrTokenSignatureInvalid`; `expired` is `jwt.ErrTokenExpired`;
`emptySecret` is the "secret key cannot be empty" guard of the UserID
variant. -/
inductive TokenError
  | malformed
  | unexpectedMethod
  | signatureInvalid
  | expired
  | emptySecret
deriving Repr, DecidableEq

end Jwt

namespace AuthPair

open Jwt

/-- `Claims` of `internal/auth/jwt.go`: AccountID and LenderID plus the
registered `exp`/`iat` fields (`jwt.RegisteredClaims` carries them as
nilable `*NumericDate`, hence `Option`). -/
structure Claims where
  accountID : Int
  lenderID : Int
  expiresAt : Option Nat
  issuedAt : Option Nat
deriving Repr, DecidableEq

/-- A token string, at the semantic level the golang-jwt v5 parser sees it:
either not a structurally valid three-part JWT, or a well-formed token with
a declared algorithm, a decodable `Claims` payload and a MAC produced under
`sigKey`.  The MAC is modelled by the key it was produced with: verification
under `secret` succeeds exactly when `sigKey = secret` (no HMAC
collisions). -/
inductive Token
  | malformed (raw : String)
  | wellFormed (alg : Alg) (claims : Claims) (sigKey : String)
deriving Repr, DecidableEq

/-- `AccessTokenDuration = 15 * time.Minute`, in seconds. -/
def AccessTokenDuration : Nat := 15 * 60

/-- `RefreshTokenDuration = 7 * 24 * time.Hour`, in seconds. -/
def RefreshTokenDuration : Nat := 7 * 24 * 60 * 60

/-- `TokenPair` of jwt.go. -/
structure TokenPair where
  accessToken : Token
  refreshToken : Token
deriving Repr, DecidableEq

/-- `GenerateAccessToken` (jwt.go:27-43).  The source reads the wall clock
twice: `time.Now().Add(AccessTokenDuration)` for `ExpiresAt` (line 32) and
then `time.Now()` for `IssuedAt` (line 33); `tExp` and `tIat` are those two
successive clock samples.  There is no empty-secret guard in this variant.
`SignedString` with an HMAC method and a byte-slice key cannot fail, so the
result is always `ok`; the `Except` mirrors the `(string, error)` return. -/
def GenerateAccessToken (accountID lenderID : Int) (secretKey : String)
    (tExp tIat : Nat) : Except TokenError Token :=
  .ok (.wellFormed .HS256
    { accountID := accountID, lenderID := lenderID,
      expiresAt := some (tExp + AccessTokenDuration),
      issuedAt := some tIat }
    secretKey)

/-- `GenerateRefreshToken` (jwt.go:46-62): same as access with the 7-day
duration. -/
def GenerateRefreshToken (accountID lenderID : Int) (secretKey : String)
    (tExp tIat : Nat) : Except TokenError Token :=
  .ok (.wellFormed .HS256
    { accountID := accountID, lenderID := lenderID,
      expiresAt := some (tExp + RefreshTokenDuration),
      issuedAt := some tIat }
    secretKey)

/-- `GenerateTokenPair` (jwt.go:65-80): both kinds from the same identity;
`tA`/`tR` are the clock samples of the two inner calls. -/
def GenerateTokenPair (accountID lenderID : Int) (secretKey : String)
    (tA tR : Nat) : Except TokenError TokenPair := do
  let accessToken ← GenerateAccessToken accountID lenderID secretKey tA tA
  let refreshToken ← GenerateRefreshToken accountID lenderID secretKey tR tR
  return { accessToken := accessToken, refreshToken := refreshToken }

/-- `ValidateToken` (jwt.go:83-101).  Follows the golang-jwt v5 `Parse`
pipeline: structural decode (`ErrTokenMalformed`), keyfunc (non-HMAC `alg`
rejected, wrapped as `ErrTokenUnverifiable`), signature verification
(`ErrTokenSignatureInvalid`), then claims validation (`exp` only: this
parser is built with no options, so leeway is zero and `iat` is not
validated; a token is expired when `now` is not before `exp`).  No
empty-secret guard exists in this variant.  All library errors are passed
through unchanged (`return nil, err`). -/
def ValidateToken (tok : Token) (secretKey : String) (now : Nat) :
    Except TokenError Claims :=
  match tok with
  | .malformed _ => .error .malformed
  | .wellFormed alg claims sigKey =>
    if !alg.isHMAC then .error .unexpectedMethod
    else if sigKey != secretKey then .error .signatureInvalid
    else
      match claims.expiresAt with
      | some exp => if exp ≤ now then .error .expired else .ok claims
      | none => .ok claims

/-- `ExtractAccountID` (jwt.go:104-110): Validate then project. -/
def ExtractAccountID (tok : Token) (secretKey : String) (now : Nat) :
    Except TokenError Int := do
  let claims ← ValidateToken tok secretKey now
  return claims.accountID

/-- `ExtractLenderID` (jwt.go:113-119): Validate then project. -/
def ExtractLenderID (tok : Token) (secretKey : String) (now : Nat) :
    Except TokenError Int := do
  let claims ← ValidateToken tok secretKey now
  return claims.lenderID

end AuthPair

namespace AuthUser

open Jwt

/-- `Claims` of the UserID variant of the auth package (the file carrying
`GenerateAccessToken(userID int64, secretKey string)`): a single numeric
subject plus the registered `exp`/`iat`. -/
structure Claims where
  userID : Int
  expiresAt : Option Nat
  issuedAt : Option Nat
deriving Repr, DecidableEq

/-- Token strings of the UserID variant, same semantic modelling as
`AuthPair.Token`. -/
inductive Token
  | malformed (raw : String)
  | wellFormed (alg : Alg) (claims : Claims) (sigKey : String)
deriving Repr, DecidableEq

/-- `AccessTokenDuration = 15 * time.Minute`, in seconds. -/
def AccessTokenDuration : Nat := 15 * 60

/-- `RefreshTokenDuration = 7 * 24 * time.Hour`, in seconds. -/
def RefreshTokenDuration : Nat := 7 * 24 * 60 * 60

/-- The leeway the UserID `ValidateToken` passes to the parser:
`jwt.WithLeeway(5*time.Second)`. -/
def LeewaySeconds : Nat := 5

/-- `TokenPair` of the UserID variant. -/
structure TokenPair where
  accessToken : Token
  refreshToken : Token
deriving Repr, DecidableEq

/-- `GenerateAccessToken` of the UserID variant: guards
`if secretKey == "" { return "", errors.New("secret key cannot be empty") }`
before constructing claims or signing; then signs HS256 claims with
`exp = now + AccessTokenDuration` (first clock sample `tExp`) and
`iat = now` (second clock sample `tIat`). -/
def GenerateAccessToken (userID : Int) (secretKey : String)
    (tExp tIat : Nat) : Except TokenError Token :=
  if secretKey == "" then .error .emptySecret
  else
    .ok (.wellFormed .HS256
      { userID := userID,
        expiresAt := some (tExp + AccessTokenDuration),
        issuedAt := some tIat }
      secretKey)

/-- `GenerateRefreshToken` of the UserID variant: same guard, 7-day
duration. -/
def GenerateRefreshToken (userID : Int) (secretKey : String)
    (tExp tIat : Nat) : Except TokenError Token :=
  if secretKey == "" then .error .emptySecret
  else
    .ok (.wellFormed .HS256
      { userID := userID,
        expiresAt := some (tExp + RefreshTokenDuration),
        issuedAt := some tIat }
      secretKey)

/-- `GenerateTokenPair` of the UserID variant: access first, then refresh,
propagating the first failure. -/
def GenerateTokenPair (userID : Int) (secretKey : String)
    (tA tR : Nat) : Except TokenError TokenPair := do
  let accessToken ← GenerateAccessToken userID secretKey tA tA
  let refreshToken ← GenerateRefreshToken userID secretKey tR tR
  return { accessToken := accessToken, refreshToken := refreshToken }

/-- `ValidateToken` of the UserID variant: the empty-secret guard comes
first, before any parsing or cryptographic work; then the golang-jwt v5
pipeline with `jwt.WithLeeway(5*time.Second)`: malformed structure, keyfunc
(non-HMAC `alg` → "unexpected signing method"), signature, then expiry — a
token is expired when `now` is not before `exp + leeway`.  The code maps
`jwt.ErrTokenExpired` to "token expired" and `jwt.ErrTokenSignatureInvalid`
to "invalid token signature" and passes other parse errors through; the
kinds stay distinguishable and are represented by `TokenError` directly. -/
def ValidateToken (tok : Token) (secretKey : String) (now : Nat) :
    Except TokenError Claims :=
  if secretKey == "" then .error .emptySecret
  else
    match tok with
    | .malformed _ => .error .malformed
    | .wellFormed alg claims sigKey =>
      if !alg.isHMAC then .error .unexpectedMethod
      else if sigKey != secretKey then .error .signatureInvalid
      else
        match claims.expiresAt with
        | some exp =>
          if exp + LeewaySeconds ≤ now then .error .expired else .ok claims
        | none => .ok claims

/-- `ExtractUserID` of the UserID variant: Validate then project. -/
def ExtractUserID (tok : Token) (secretKey : String) (now : Nat) :
    Except TokenError Int := do
  let claims ← ValidateToken tok secretKey now
  return claims.userID

end AuthUser

namespace Utils

/-- `ValidatePassword` of the `utils` package (the implementation file is
appended to `internal/database/database_test.go`): three checks in order,
returning the first violation's message, `none` when the password is
acceptable.  Go's `len(password)` is the UTF-8 byte length, embedded as
`String.utf8ByteSize`; the regexes `[A-Z]` and `[0-9]` match exactly the
ASCII ranges, which are precisely Lean's `Char.isUpper` (`65 ≤ c ≤ 90`)
and `Char.isDigit` (`48 ≤ c ≤ 57`) — in valid UTF-8 those byte values
occur only as standalone ASCII code points, so a per-character scan is
equivalent to the regex match. -/
def ValidatePassword (password : String) : Option String :=
  if password.utf8ByteSize < 8 then
    some "password must be at least 8 characters long"
  else if !(password.toList.any Char.isUpper) then
    some "password must contain at least one uppercase letter"
  else if !(password.toList.any Char.isDigit) then
    some "password must contain at least one number"
  else
    none

end Utils

namespace Repo

/-- Concrete state: the database after the successful onboarding call of
`TestCreateLenderAndAccount` (one lender, one account). -/
def dbSeed : DB :=
  (createLenderAndAccount DB.init "Lender Business" "lender@example.com"
    "123-456-7890" "lenderuser" "hashedpassword" 5 100 true).2

/-- The account row of `dbSeed` as created (never logged in). -/
def accSeed : Account :=
  { accountID := 1, lenderID := 1, username := "lenderuser",
    passwordHash := "hashedpassword", createdAt := 100, updatedAt := 100,
    lastLogin := none, isLocked := false }

/-- The account row of `dbSeed` after `updateLastLogin` at time 555:
`Last_Login` set and `Updated_At` bumped by the trigger, all other fields
as in `accSeed`. -/
def accSeedTouched : Account :=
  { accSeed with lastLogin := some 555, updatedAt := 555 }

/-- An account row whose `Lender_ID` (7) matches no lender. -/
def accDangling : Account :=
  { accountID := 1, lenderID := 7, username := "u",
    passwordHash := "h", createdAt := 0, updatedAt := 0,
    lastLogin := none, isLocked := false }

/-- Concrete state exhibiting the referential-integrity anomaly
`GetLenderByAccountID` must handle defensively: an account whose
`Lender_ID` resolves to no lender row. -/
def dbDangling : DB :=
  { lenders := [], accounts := [accDangling],
    nextLenderID := 8, nextAccountID := 2 }

end Repo

/-- Helper: a map that fixes every element of a list leaves it unchanged. -/
theorem list_map_eq_self {α : Type} (f : α → α) (l : List α)
    (h : ∀ a ∈ l, f a = a) : l.map f = l := by
  induction l with
  | nil => rfl
  | cons x xs ih =>
    simp only [List.map_cons]
    rw [h x (List.mem_cons_self x xs), ih (fun a ha => h a (List.mem_cons_of_mem x ha))]

/-- Helper: if a decidable predicate fails on every element, `find?` finds
nothing. -/
theorem list_find?_eq_none {α : Type} (p : α → Bool) (l : List α)
    (h : ∀ a ∈ l, p a = false) : l.find? p = none := by
  induction l with
  | nil => rfl
  | cons x xs ih =>
    rw [List.find?_cons, h x (List.mem_cons_self x xs)]
    exact ih (fun a ha => h a (List.mem_cons_of_mem x ha))

/-- C1: `CreateLenderAndAccount` is all-or-nothing.  Whenever the call
returns an error — in particular on a unique-constraint violation of the
lender email or of the account username — the committed state is exactly
the state before the call, so no Lender or Account row from this call is
visible; and on a `nil` error the call returns the newly assigned account
identifier and both the new Account row and the new Lender row exist in the
committed state. -/
theorem createLenderAndAccount_atomic (db : Repo.DB)
    (bn em ph un pw : String) (ir : Int) (now : Nat) (commitOk : Bool) :
    ((Repo.createLenderAndAccount db bn em ph un pw ir now commitOk).1.2.isSome = true →
       (Repo.createLenderAndAccount db bn em ph un pw ir now commitOk).2 = db) ∧
    (Repo.emailTaken db em = true →
       (Repo.createLenderAndAccount db bn em ph un pw ir now commitOk).1.2 =
         some .uniqueEmail) ∧
    (Repo.emailTaken db em = false → (0 ≤ ir ∧ ir ≤ 100) →
       Repo.usernameTaken db un = true →
       (Repo.createLenderAndAccount db bn em ph un pw ir now commitOk).1.2 =
         some .uniqueUsername) ∧
    ((Repo.createLenderAndAccount db bn em ph un pw ir now commitOk).1.2 = none →
       (Repo.createLenderAndAccount db bn em ph un pw ir now commitOk).1.1 =
         db.nextAccountID ∧
       (∃ a ∈ (Repo.createLenderAndAccount db bn em ph un pw ir now commitOk).2.accounts,
          a.accountID = db.nextAccountID ∧ a.username = un ∧
          a.passwordHash = pw ∧ a.lenderID = db.nextLenderID) ∧
       (∃ l ∈ (Repo.createLenderAndAccount db bn em ph un pw ir now commitOk).2.lenders,
          l.lenderID = db.nextLenderID ∧ l.email = em ∧ l.businessName = bn)) := by
  unfold Repo.createLenderAndAccount
  by_cases hEm : Repo.emailTaken db em = true
  · simp [hEm]
  · simp only [Bool.not_eq_true] at hEm
    by_cases hIr : (0 ≤ ir ∧ ir ≤ 100)
    · by_cases hUn : Repo.usernameTaken db un = true
      · simp [hEm, hIr, hUn]
      · simp only [Bool.not_eq_true] at hUn
        cases commitOk
        · simp [hEm, hIr, hUn]
        · simp [hEm, hIr, hUn]
          exact ⟨⟨_, Or.inr rfl, rfl, rfl, rfl, rfl⟩, ⟨_, Or.inr rfl, rfl, rfl, rfl⟩⟩
    · simp [hEm, hIr]

/-- Witness for C1 at the seeded database of the repository unit test: a
second onboarding call reusing the username `lenderuser` fails and leaves
the committed state untouched, and the original successful call returned
identifier 1 with both rows present. -/
theorem createLenderAndAccount_atomic_witness :
    (Repo.createLenderAndAccount Repo.dbSeed "Another Business"
       "another@example.com" "987-654-3210" "lenderuser" "anotherhash" 6 200 true).2 =
      Repo.dbSeed ∧
    (Repo.createLenderAndAccount Repo.DB.init "Lender Business" "lender@example.com"
       "123-456-7890" "lenderuser" "hashedpassword" 5 100 true).1.1 = 1 := by
  constructor
  · exact (createLenderAndAccount_atomic Repo.dbSeed "Another Business"
      "another@example.com" "987-654-3210" "lenderuser" "anotherhash" 6 200 true).1
      (by decide)
  · exact ((createLenderAndAccount_atomic Repo.DB.init "Lender Business"
      "lender@example.com" "123-456-7890" "lenderuser" "hashedpassword" 5 100 true).2.2.2
      (by decide)).1

/-- C10: when both inserts succeed but the final `tx.Commit()` fails,
`CreateLenderAndAccount` returns the non-zero store-assigned account
identifier together with the commit error, while the committed state is
unchanged and contains no account with that identifier — so a non-zero
returned identifier does not imply the account exists; only a `nil` error
does. -/
theorem createLenderAndAccount_commit_failure (db : Repo.DB)
    (bn em ph un pw : String) (ir : Int) (now : Nat)
    (hEm : Repo.emailTaken db em = false)
    (hIr : 0 ≤ ir ∧ ir ≤ 100)
    (hUn : Repo.usernameTaken db un = false)
    (hNext : 1 ≤ db.nextAccountID)
    (hFresh : db.accounts.all (fun a => a.accountID != db.nextAccountID) = true) :
    (Repo.createLenderAndAccount db bn em ph un pw ir now false).1.1 =
      db.nextAccountID ∧
    (Repo.createLenderAndAccount db bn em ph un pw ir now false).1.1 ≠ 0 ∧
    (Repo.createLenderAndAccount db bn em ph un pw ir now false).1.2 =
      some .commitFailed ∧
    (Repo.createLenderAndAccount db bn em ph un pw ir now false).2 = db ∧
    ((Repo.createLenderAndAccount db bn em ph un pw ir now false).2.accounts.any
       (fun a => a.accountID ==
         (Repo.createLenderAndAccount db bn em ph un pw ir now false).1.1)) = false := by
  unfold Repo.createLenderAndAccount
  simp only [hEm, hIr, hUn, Bool.false_eq_true, if_false, decide_True, Bool.not_true]
  refine ⟨?_, ?_, ?_, ?_, ?_⟩
  · simp
  · simp; omega
  · simp
  · simp
  · simp only [List.any_eq_false]
    intro a ha
    have := List.all_eq_true.mp hFresh a ha
    simpa using this

/-- Witness for C10 at the seeded database: with a failing commit the call
returns identifier 2 alongside the commit error, and no account row with
identifier 2 exists afterwards. -/
theorem createLenderAndAccount_commit_failure_witness :
    (Repo.createLenderAndAccount Repo.dbSeed "Another Business"
       "another@example.com" "987-654-3210" "anotheruser" "anotherhash" 6 200 false).1.1 = 2 ∧
    (Repo.createLenderAndAccount Repo.dbSeed "Another Business"
       "another@example.com" "987-654-3210" "anotheruser" "anotherhash" 6 200 false).1.2 =
      some .commitFailed ∧
    (Repo.createLenderAndAccount Repo.dbSeed "Another Business"
       "another@example.com" "987-654-3210" "anotheruser" "anotherhash" 6 200 false).2 =
      Repo.dbSeed := by
  have h := createLenderAndAccount_commit_failure Repo.dbSeed "Another Business"
    "another@example.com" "987-654-3210" "anotheruser" "anotherhash" 6 200
    (by decide) (by decide) (by decide) (by decide) (by decide)
  exact ⟨h.1, h.2.2.1, h.2.2.2.1⟩

/-- C6: the lookups fail with the distinct sentinels.  When no account row
matches the username, `GetAccountByUsername` returns exactly
`ErrAccountNotFound` (never a generic error, never an account), and
likewise `GetAccountByID` for an unmatched identifier;
`GetLenderByAccountID` returns `ErrAccountNotFound` when the account does
not exist and the distinct `ErrLenderNotFound` when the account exists but
its `Lender_ID` resolves to no lender row. -/
theorem lookup_notFound_sentinels (db : Repo.DB) (un : String) (id : Nat) :
    ((∀ a ∈ db.accounts, a.username ≠ un) →
       Repo.getAccountByUsername db un = .error .accountNotFound) ∧
    ((∀ a ∈ db.accounts, a.accountID ≠ id) →
       Repo.getAccountByID db id = .error .accountNotFound) ∧
    ((∀ a ∈ db.accounts, a.accountID ≠ id) →
       Repo.getLenderByAccountID db id = .error .accountNotFound) ∧
    (∀ a, db.accounts.find? (fun x => x.accountID == id) = some a →
       (∀ l ∈ db.lenders, l.lenderID ≠ a.lenderID) →
       Repo.getLenderByAccountID db id = .error .lenderNotFound) ∧
    (Repo.DBError.accountNotFound ≠ Repo.DBError.lenderNotFound) := by
  refine ⟨?_, ?_, ?_, ?_, by decide⟩
  · intro h
    unfold Repo.getAccountByUsername
    rw [list_find?_eq_none _ _ (fun a ha => by simpa using h a ha)]
  · intro h
    unfold Repo.getAccountByID
    rw [list_find?_eq_none _ _ (fun a ha => by simpa using h a ha)]
  · intro h
    unfold Repo.getLenderByAccountID
    rw [list_find?_eq_none _ _ (fun a ha => by simpa using h a ha)]
  · intro a ha hl
    have hfind : db.lenders.find? (fun l => l.lenderID == a.lenderID) = none :=
      list_find?_eq_none _ _ (fun l hm => by simpa using hl l hm)
    simp [Repo.getLenderByAccountID, ha, hfind]

/-- Witness for C6: on the seeded database `GetAccountByUsername
"nonexistent"` and `GetAccountByID 99999` both return
`ErrAccountNotFound`, and on a state with a dangling `Lender_ID` the
two-step lookup returns `ErrLenderNotFound`. -/
theorem lookup_notFound_sentinels_witness :
    Repo.getAccountByUsername Repo.dbSeed "nonexistent" = .error .accountNotFound ∧
    Repo.getAccountByID Repo.dbSeed 99999 = .error .accountNotFound ∧
    Repo.getLenderByAccountID Repo.dbSeed 99999 = .error .accountNotFound ∧
    Repo.getLenderByAccountID Repo.dbDangling 1 = .error .lenderNotFound := by
  have h1 := lookup_notFound_sentinels Repo.dbSeed "nonexistent" 99999
  have h2 := lookup_notFound_sentinels Repo.dbDangling "z" 1
  refine ⟨h1.1 (by decide), h1.2.1 (by decide), h1.2.2.1 (by decide), ?_⟩
  exact h2.2.2.2.1 Repo.accDangling (by decide) (by decide)

/-- C7: `UpdateLastLogin` never reports an error; on an account that exists
it sets that row's `Last_Login` to the current time (the schema trigger
also touching `Updated_At`), and on an identifier matching no row it is a
pure no-op: success is returned and the state is unchanged. -/
theorem updateLastLogin_policy (db : Repo.DB) (id : Nat) (now : Nat) :
    (Repo.updateLastLogin db id now).1 = none ∧
    (∀ a ∈ db.accounts, a.accountID = id →
       { a with lastLogin := some now, updatedAt := now } ∈
         (Repo.updateLastLogin db id now).2.accounts) ∧
    ((∀ a ∈ db.accounts, a.accountID ≠ id) →
       (Repo.updateLastLogin db id now).2 = db) := by
  refine ⟨rfl, ?_, ?_⟩
  · intro a ha hid
    have : ({ a with lastLogin := some now, updatedAt := now } : Repo.Account) =
        (fun a => if a.accountID == id then
          { a with lastLogin := some now, updatedAt := now } else a) a := by
      simp [hid]
    rw [this]
    exact List.mem_map_of_mem _ ha
  · intro h
    have hmap : db.accounts.map (fun a => if a.accountID == id then
        { a with lastLogin := some now, updatedAt := now } else a) = db.accounts := by
      apply list_map_eq_self
      intro a ha
      simp [h a ha]
    have hstate : (Repo.updateLastLogin db id now).2 =
        { db with accounts := db.accounts.map (fun a => if a.accountID == id then
            { a with lastLogin := some now, updatedAt := now } else a) } := rfl
    rw [hstate, hmap]

/-- Witness for C7: on the seeded database, updating account 1 at time 555
succeeds and the updated row is present with `Last_Login = 555`, while
updating the non-existent account 99999 succeeds and changes nothing. -/
theorem updateLastLogin_policy_witness :
    (Repo.updateLastLogin Repo.dbSeed 99999 555).1 = none ∧
    (Repo.updateLastLogin Repo.dbSeed 99999 555).2 = Repo.dbSeed ∧
    ({ Repo.accSeed with lastLogin := some 555, updatedAt := 555 } : Repo.Account) ∈
      (Repo.updateLastLogin Repo.dbSeed 1 555).2.accounts := by
  have h1 := updateLastLogin_policy Repo.dbSeed 99999 555
  have h2 := updateLastLogin_policy Repo.dbSeed 1 555
  exact ⟨h1.1, h1.2.2 (by decide), h2.2.1 Repo.accSeed (by decide) (by decide)⟩

/-- C9: frame condition of `UpdateLastLogin` with the schema's
`update_accounts_updated_at` trigger.  Every account row in the state after
the call descends from a row of the state before it: the matched row has
`Last_Login` set to now and the system-maintained `Updated_At` bumped to
now, with username, password hash, lender id, locked flag and created-at
preserved; every other row, and the whole Lenders table, is untouched. -/
theorem updateLastLogin_frame (db : Repo.DB) (id : Nat) (now : Nat)
    (a : Repo.Account)
    (ha : a ∈ (Repo.updateLastLogin db id now).2.accounts) :
    (Repo.updateLastLogin db id now).2.lenders = db.lenders ∧
    ∃ a0, a0 ∈ db.accounts ∧
      a.accountID = a0.accountID ∧ a.lenderID = a0.lenderID ∧
      a.username = a0.username ∧ a.passwordHash = a0.passwordHash ∧
      a.createdAt = a0.createdAt ∧ a.isLocked = a0.isLocked ∧
      (a0.accountID = id → a.lastLogin = some now ∧ a.updatedAt = now) ∧
      (a0.accountID ≠ id → a = a0) := by
  refine ⟨rfl, ?_⟩
  unfold Repo.updateLastLogin at ha
  simp only [List.mem_map] at ha
  obtain ⟨a0, ha0, heq⟩ := ha
  by_cases hid : a0.accountID = id
  · refine ⟨a0, ha0, ?_⟩
    rw [← heq]
    simp [hid]
  · refine ⟨a0, ha0, ?_⟩
    rw [← heq]
    simp [hid]

/-- Witness for C9: on the seeded database updating account 1 at time 555,
the resulting row keeps username, password hash, lender id, locked flag and
created-at of the original row, while carrying the new `Last_Login` and
`Updated_At`. -/
theorem updateLastLogin_frame_witness :
    (Repo.updateLastLogin Repo.dbSeed 1 555).2.lenders = Repo.dbSeed.lenders ∧
    ∃ a0, a0 ∈ Repo.dbSeed.accounts ∧
      Repo.accSeedTouched.accountID = a0.accountID ∧
      Repo.accSeedTouched.lenderID = a0.lenderID ∧
      Repo.accSeedTouched.username = a0.username ∧
      Repo.accSeedTouched.passwordHash = a0.passwordHash ∧
      Repo.accSeedTouched.createdAt = a0.createdAt ∧
      Repo.accSeedTouched.isLocked = a0.isLocked ∧
      (a0.accountID = 1 →
        Repo.accSeedTouched.lastLogin = some 555 ∧
        Repo.accSeedTouched.updatedAt = 555) ∧
      (a0.accountID ≠ 1 → Repo.accSeedTouched = a0) :=
  updateLastLogin_frame Repo.dbSeed 1 555 Repo.accSeedTouched (by decide)

/-- C2 (amended): error taxonomy of the UserID-variant `ValidateToken`.
For every token string and non-empty secret: a structurally invalid string
fails with `malformed`; a well-formed token declaring a non-HMAC algorithm
fails with the distinct `unexpectedMethod` rejection (not with
`signatureInvalid`); a well-formed HMAC token whose signature does not
verify under the secret fails with `signatureInvalid`; a correctly signed
token fails with `expired` exactly when the current time has reached the
embedded expiry plus the 5-second clock-skew leeway, and otherwise the
decoded claims are returned.  The checks happen in that order, the failure
kinds are pairwise distinct, and the deterministic result makes them
mutually exclusive. -/
theorem validateToken_error_taxonomy (tok : AuthUser.Token) (secret : String)
    (now : Nat) (hs : secret ≠ "") :
    (∀ raw, tok = .malformed raw →
       AuthUser.ValidateToken tok secret now = .error .malformed) ∧
    (∀ alg claims sigKey, tok = .wellFormed alg claims sigKey →
       (alg.isHMAC = false →
          AuthUser.ValidateToken tok secret now = .error .unexpectedMethod) ∧
       (alg.isHMAC = true → sigKey ≠ secret →
          AuthUser.ValidateToken tok secret now = .error .signatureInvalid) ∧
       (alg.isHMAC = true → sigKey = secret →
          ∀ exp, claims.expiresAt = some exp →
            (exp + AuthUser.LeewaySeconds ≤ now →
               AuthUser.ValidateToken tok secret now = .error .expired) ∧
            (now < exp + AuthUser.LeewaySeconds →
               AuthUser.ValidateToken tok secret now = .ok claims))) ∧
    ((Jwt.TokenError.malformed ≠ .unexpectedMethod) ∧
     (Jwt.TokenError.malformed ≠ .signatureInvalid) ∧
     (Jwt.TokenError.malformed ≠ .expired) ∧
     (Jwt.TokenError.unexpectedMethod ≠ .signatureInvalid) ∧
     (Jwt.TokenError.unexpectedMethod ≠ .expired) ∧
     (Jwt.TokenError.signatureInvalid ≠ .expired)) := by
  have hsb : (secret == "") = false := by
    simp only [beq_eq_false_iff_ne, ne_eq]
    exact hs
  refine ⟨?_, ?_, by decide⟩
  · intro raw hraw
    subst hraw
    simp [AuthUser.ValidateToken, hsb]
  · intro alg claims sigKey htok
    subst htok
    refine ⟨?_, ?_, ?_⟩
    · intro halg
      simp [AuthUser.ValidateToken, hsb, halg]
    · intro halg hsig
      have hsigb : (sigKey != secret) = true := by
        simp only [bne_iff_ne, ne_eq]
        exact hsig
      simp [AuthUser.ValidateToken, hsb, halg, hsigb]
    · intro halg hsig exp hexp
      subst hsig
      constructor
      · intro hle
        simp [AuthUser.ValidateToken, hsb, halg, hexp, hle]
      · intro hlt
        simp [AuthUser.ValidateToken, hsb, halg, hexp, Nat.not_le.mpr hlt]

/-- Witness for C2: the four outcomes realised at concrete inputs — a
malformed string, a wrong key, an expired token (now = 20 against expiry 10
with leeway 5), and a fresh token returning its claims. -/
theorem validateToken_error_taxonomy_witness :
    AuthUser.ValidateToken (.malformed "xx") "k" 0 = .error .malformed ∧
    AuthUser.ValidateToken
      (.wellFormed .HS256 { userID := 1, expiresAt := some 10, issuedAt := some 0 } "other")
      "k" 0 = .error .signatureInvalid ∧
    AuthUser.ValidateToken
      (.wellFormed .HS256 { userID := 1, expiresAt := some 10, issuedAt := some 0 } "k")
      "k" 20 = .error .expired ∧
    AuthUser.ValidateToken
      (.wellFormed .HS256 { userID := 1, expiresAt := some 10, issuedAt := some 0 } "k")
      "k" 3 = .ok { userID := 1, expiresAt := some 10, issuedAt := some 0 } := by
  refine ⟨?_, ?_, ?_, ?_⟩
  · exact (validateToken_error_taxonomy (.malformed "xx") "k" 0 (by decide)).1 "xx" rfl
  · exact (((validateToken_error_taxonomy
      (.wellFormed .HS256 { userID := 1, expiresAt := some 10, issuedAt := some 0 } "other")
      "k" 0 (by decide)).2.1 _ _ _ rfl).2.1 (by decide) (by decide))
  · exact ((((validateToken_error_taxonomy
      (.wellFormed .HS256 { userID := 1, expiresAt := some 10, issuedAt := some 0 } "k")
      "k" 20 (by decide)).2.1 _ _ _ rfl).2.2 (by decide) rfl 10 rfl).1 (by decide))
  · exact ((((validateToken_error_taxonomy
      (.wellFormed .HS256 { userID := 1, expiresAt := some 10, issuedAt := some 0 } "k")
      "k" 3 (by decide)).2.1 _ _ _ rfl).2.2 (by decide) rfl 10 rfl).2 (by decide))

/-- C2 counterexample: a well-formed token declaring the non-HMAC algorithm
RS256, correctly MAC'd under the very secret used for validation and far
from expiry, is rejected with the distinct unexpected-signing-method kind —
not with the `signatureInvalid` kind the claim asserts for
algorithm-mismatch. -/
theorem validateToken_alg_mismatch_not_signatureInvalid :
    AuthUser.ValidateToken
      (.wellFormed .RS256 { userID := 1, expiresAt := some 1000, issuedAt := some 0 } "secret")
      "secret" 0 = .error .unexpectedMethod ∧
    Jwt.TokenError.unexpectedMethod ≠ Jwt.TokenError.signatureInvalid := by
  exact ⟨rfl, by decide⟩

/-- C3 (amended): the UserID-variant token operations all guard the empty
secret first.  For every identity, every pair of clock samples and every
token string, `GenerateAccessToken`, `GenerateRefreshToken`,
`GenerateTokenPair` and `ValidateToken` of the UserID variant return the
`emptySecret` error when the secret is the empty string — before any
construction of claims, signing, parsing or verification, so the failure is
independent of the token's validity.  The AccountID/LenderID variant in
`jwt.go` performs no such check (see the counterexample). -/
theorem authUser_emptySecret_guard (userID : Int) (tExp tIat : Nat)
    (tok : AuthUser.Token) (now : Nat) :
    AuthUser.GenerateAccessToken userID "" tExp tIat = .error .emptySecret ∧
    AuthUser.GenerateRefreshToken userID "" tExp tIat = .error .emptySecret ∧
    AuthUser.GenerateTokenPair userID "" tExp tIat = .error .emptySecret ∧
    AuthUser.ValidateToken tok "" now = .error .emptySecret := by
  refine ⟨rfl, rfl, rfl, ?_⟩
  simp [AuthUser.ValidateToken]

/-- C3 counterexample: the AccountID/LenderID variant (`jwt.go`) has no
empty-secret check.  `GenerateAccessToken` with the empty secret succeeds,
producing a signed token, and `ValidateToken` with the empty secret accepts
that token and returns its claims — no `EmptySecret` failure occurs in this
variant. -/
theorem authPair_no_emptySecret_guard :
    AuthPair.GenerateAccessToken 1 2 "" 0 0 =
      .ok (.wellFormed .HS256
        { accountID := 1, lenderID := 2, expiresAt := some 900, issuedAt := some 0 } "") ∧
    AuthPair.ValidateToken
      (.wellFormed .HS256
        { accountID := 1, lenderID := 2, expiresAt := some 900, issuedAt := some 0 } "")
      "" 0 =
      .ok { accountID := 1, lenderID := 2, expiresAt := some 900, issuedAt := some 0 } := by
  exact ⟨rfl, rfl⟩

/-- C4: round-trip of the AccountID/LenderID variant.  Issuing an access
token for an identity under a non-empty secret and validating the resulting
token with the same secret, at any instant from issuance up to (but not
reaching) expiry, succeeds and recovers the same identity; the embedded
expiry is exactly issuance plus the fixed 15-minute access duration, hence
lies between the issuance time and issuance plus the duration plus any
leeway. -/
theorem generate_validate_roundtrip (accountID lenderID : Int) (secret : String)
    (tIssue tVal : Nat) (hs : secret ≠ "") (h1 : tIssue ≤ tVal)
    (h2 : tVal < tIssue + AuthPair.AccessTokenDuration) :
    ∃ tok, AuthPair.GenerateAccessToken accountID lenderID secret tIssue tIssue = .ok tok ∧
      ∃ claims, AuthPair.ValidateToken tok secret tVal = .ok claims ∧
        claims.accountID = accountID ∧ claims.lenderID = lenderID ∧
        claims.expiresAt = some (tIssue + AuthPair.AccessTokenDuration) ∧
        tIssue ≤ tIssue + AuthPair.AccessTokenDuration := by
  refine ⟨_, rfl,
    { accountID := accountID, lenderID := lenderID,
      expiresAt := some (tIssue + AuthPair.AccessTokenDuration),
      issuedAt := some tIssue },
    ?_, rfl, rfl, rfl, Nat.le_add_right _ _⟩
  simp [AuthPair.ValidateToken, Jwt.Alg.isHMAC, Nat.not_le.mpr h2]

/-- Witness for C4 at the identity and secret of the unit test
`TestValidateToken_Valid`: issue at time 1000, validate immediately. -/
theorem generate_validate_roundtrip_witness :
    ∃ tok, AuthPair.GenerateAccessToken 123 456 "supersecretkey" 1000 1000 = .ok tok ∧
      ∃ claims, AuthPair.ValidateToken tok "supersecretkey" 1000 = .ok claims ∧
        claims.accountID = 123 ∧ claims.lenderID = 456 ∧
        claims.expiresAt = some (1000 + AuthPair.AccessTokenDuration) ∧
        (1000 : Nat) ≤ 1000 + AuthPair.AccessTokenDuration :=
  generate_validate_roundtrip 123 456 "supersecretkey" 1000 1000
    (by decide) (by decide) (by decide)

/-- C5 (amended): what `GenerateAccessToken` and `GenerateRefreshToken`
actually mint.  The embedded expires-at equals the clock instant sampled
for the expiry computation (the first `time.Now()` read) plus exactly the
fixed duration of the token kind — 15 minutes for access, 7 days for
refresh; issued-at is a second, later clock read, so expires-at equals
issued-at plus the fixed duration exactly when the two reads return the
same instant. -/
theorem generate_expiry_equation (accountID lenderID : Int) (secret : String)
    (tExp tIat : Nat) :
    AuthPair.GenerateAccessToken accountID lenderID secret tExp tIat =
      .ok (.wellFormed .HS256
        { accountID := accountID, lenderID := lenderID,
          expiresAt := some (tExp + AuthPair.AccessTokenDuration),
          issuedAt := some tIat } secret) ∧
    AuthPair.GenerateRefreshToken accountID lenderID secret tExp tIat =
      .ok (.wellFormed .HS256
        { accountID := accountID, lenderID := lenderID,
          expiresAt := some (tExp + AuthPair.RefreshTokenDuration),
          issuedAt := some tIat } secret) ∧
    (tExp = tIat →
       some (tExp + AuthPair.AccessTokenDuration) =
         some (tIat + AuthPair.AccessTokenDuration) ∧
       some (tExp + AuthPair.RefreshTokenDuration) =
         some (tIat + AuthPair.RefreshTokenDuration)) := by
  refine ⟨rfl, rfl, ?_⟩
  intro h
  rw [h]
  exact ⟨rfl, rfl⟩

/-- Witness for C5 (amended) with both clock reads at instant 50: expiry of
the minted access token is 50 + 900 and of the refresh token 50 + 604800,
each equal to issued-at plus the fixed duration. -/
theorem generate_expiry_equation_witness :
    AuthPair.GenerateAccessToken 1 2 "k" 50 50 =
      .ok (.wellFormed .HS256
        { accountID := 1, lenderID := 2,
          expiresAt := some (50 + AuthPair.AccessTokenDuration),
          issuedAt := some 50 } "k") ∧
    some (50 + AuthPair.AccessTokenDuration) =
      some ((50 : Nat) + AuthPair.AccessTokenDuration) :=
  ⟨(generate_expiry_equation 1 2 "k" 50 50).1,
   ((generate_expiry_equation 1 2 "k" 50 50).2.2 rfl).1⟩

/-- C5 counterexample: when the second between the two `time.Now()` reads
ticks — expiry sampled at instant 0 (line 32 of jwt.go), issued-at sampled
at instant 1 (line 33) — the minted token carries expires-at 900 and
issued-at 1, and 900 is not issued-at plus the fixed 15-minute duration
(901): the strict equation between the two claims fields fails. -/
theorem generate_expiry_strict_equation_fails :
    AuthPair.GenerateAccessToken 1 2 "k" 0 1 =
      .ok (.wellFormed .HS256
        { accountID := 1, lenderID := 2, expiresAt := some 900, issuedAt := some 1 } "k") ∧
    some (900 : Nat) ≠ some (1 + AuthPair.AccessTokenDuration) := by
  exact ⟨rfl, by decide⟩

/-- C8: `ValidatePassword` checks its rules in the fixed priority order
minimum-length-8 (Go byte length), uppercase, digit, and reports only the
first violation: every password shorter than 8 bytes reports the length
violation regardless of the other rules; a long-enough password without an
uppercase letter reports the uppercase violation; a long-enough password
with an uppercase letter but no digit reports the number violation; a
password satisfying all three rules is accepted.  The unit-test vectors are
included. -/
theorem validatePassword_first_violation (p : String) :
    (p.utf8ByteSize < 8 →
       Utils.ValidatePassword p = some "password must be at least 8 characters long") ∧
    (¬ p.utf8ByteSize < 8 → p.toList.any Char.isUpper = false →
       Utils.ValidatePassword p = some "password must contain at least one uppercase letter") ∧
    (¬ p.utf8ByteSize < 8 → p.toList.any Char.isUpper = true →
       p.toList.any Char.isDigit = false →
       Utils.ValidatePassword p = some "password must contain at least one number") ∧
    (¬ p.utf8ByteSize < 8 → p.toList.any Char.isUpper = true →
       p.toList.any Char.isDigit = true →
       Utils.ValidatePassword p = none) ∧
    (Utils.ValidatePassword "StrongPass123" = none) ∧
    (Utils.ValidatePassword "Short1" = some "password must be at least 8 characters long") ∧
    (Utils.ValidatePassword "nouppercase123" =
       some "password must contain at least one uppercase letter") := by
  refine ⟨?_, ?_, ?_, ?_, by decide, by decide, by decide⟩
  · intro h
    unfold Utils.ValidatePassword
    rw [if_pos h]
  · intro h hu
    unfold Utils.ValidatePassword
    rw [if_neg h, hu]
    rfl
  · intro h hu hd
    unfold Utils.ValidatePassword
    rw [if_neg h, hu, hd]
    rfl
  · intro h hu hd
    unfold Utils.ValidatePassword
    rw [if_neg h, hu, hd]
    rfl

/-- Witness for C8 at the unit-test vector "short1", which violates both
the length rule and the uppercase rule: only the length violation — the
first rule in the fixed order — is reported. -/
theorem validatePassword_first_violation_witness :
    Utils.ValidatePassword "short1" =
      some "password must be at least 8 characters long" :=
  (validatePassword_first_violation "short1").1 (by decide)
